import Mathlib

/-!
Shallow embedding of the FCM router (src/autopush/router/fcm.py).

Python dictionaries with a fixed set of optional keys are modelled as
structures of `Option` fields (a `none` field stands for an absent key);
dictionary subscription on a possibly absent key yields a `keyError`,
Python truthiness of strings and integers is modelled explicitly, and an
uncaught Python exception escaping the routing code is a `RouteResult.pyError`
value, kept distinct from an intentionally raised `RouterException`.
The external pyfcm gateway call is modelled by a `GatewayOutcome` parameter
describing what the call would do; metric increments are collected in an
output list in the order they are performed.
-/

namespace FCM

/-- One entry of `FCMRouter.reasonTable` (fcm.py lines 28-101):
message template, HTTP status (`err`), internal error number, critical flag
(absent in the source dict means `False`, via `err.get("crit", False)`). -/
structure ReasonEntry where
  msg : String
  err : Nat
  errno : Nat
  crit : Bool := false
deriving DecidableEq, Repr

/-- The `reasonTable` dict of fcm.py lines 28-101, as a partial lookup:
`reasonTable.get(reason)` returns `none` for a key that is not present
(the source performs the lookup with no default). -/
def reasonTable : String → Option ReasonEntry
  | "MissingRegistration" => some
      { msg := "\x27to\x27 or \x27registration_id\x27 is blank or invalid: {regid}",
        err := 500, errno := 1 }
  | "InvalidRegistration" => some
      { msg := "registration_id is invalid: {regid}", err := 410, errno := 105 }
  | "NotRegistered" => some
      { msg := "device has unregistered with FCM: {regid}", err := 410, errno := 103 }
  | "InvalidPackageName" => some
      { msg := "Invalid Package Name specified", err := 500, errno := 2, crit := true }
  | "MismatchSenderid" => some
      { msg := "Invalid SenderID used: {senderid}", err := 410, errno := 105, crit := true }
  | "MessageTooBig" => some
      { msg := "Message length was too big: {nlen}", err := 413, errno := 104 }
  | "InvalidDataKey" => some
      { msg := "Payload contains an invalid or restricted key value",
        err := 500, errno := 3, crit := true }
  | "InvalidTtl" => some
      { msg := "Invalid TimeToLive {ttl}", err := 400, errno := 111 }
  | "Unavailable" => some
      { msg := "Message has timed out or device is unavailable", err := 200, errno := 0 }
  | "InternalServerError" => some
      { msg := "FCM internal server error", err := 500, errno := 999 }
  | "DeviceMessageRateExceeded" => some
      { msg := "Too many messages for this device", err := 503, errno := 4 }
  | "TopicsMessageRateExceeded" => some
      { msg := "Too many subscribers for this topic", err := 503, errno := 5, crit := true }
  | "Unreported" => some
      { msg := "Error has no reported reason.", err := 500, errno := 999, crit := true }
  | _ => none

/-- `notification.headers`: a dict with optional keys, read by
`notification.headers[...]` (keyError when absent) and membership tests. -/
structure Headers where
  encoding : Option String := none
  encryption : Option String := none
  crypto_key : Option String := none
  encryption_key : Option String := none
deriving DecidableEq, Repr

/-- The notification value as read by `_route` and `_process_reply`:
`channel_id.hex`, optional opaque payload, headers, optional requested TTL
(Python int or None), and `version`. -/
structure Notification where
  chid_hex : String
  data : Option String := none
  headers : Headers := {}
  ttl : Option Int := none
  version : String
deriving DecidableEq, Repr

/-- The credential record written by `register`:
`{"senderID": ..., "auth": ...}` (fcm.py lines 145-146). -/
structure Creds where
  senderID : String
  auth : String
deriving DecidableEq, Repr

/-- Per-device routing data dict: optional `token`, optional `creds`,
and whether a `dryrun` key is present. -/
structure RouterData where
  token : Option String := none
  creds : Option Creds := none
  has_dryrun : Bool := false
deriving DecidableEq, Repr

/-- One element of the reply dict `results` list: optional `error` and
optional `registration_id` keys. -/
structure FCMResult where
  error : Option String := none
  registration_id : Option String := none
deriving DecidableEq, Repr

/-- The gateway reply dict as read by `_process_reply`: optional
`canonical_ids` and `failure` counts and an optional `results` list. -/
structure Reply where
  canonical_ids : Option Int := none
  failure : Option Int := none
  results : Option (List FCMResult) := none
deriving DecidableEq, Repr

/-- The `router_data` keyword handed back inside a `RouterResponse`:
either `dict(token=new_id)` (re-registration) or the empty dict. -/
inductive RouterDataPatch where
  | tokenPatch (newId : Option String)
  | emptyPatch
deriving DecidableEq, Repr

/-- The `headers` dict of the success `RouterResponse`:
`{"TTL": ttl, "Location": location}` (fcm.py lines 270-271). -/
structure RespHeaders where
  ttl : Int
  location : String
deriving DecidableEq, Repr

/-- `RouterResponse` as constructed in fcm.py; keyword arguments not passed
at a construction site are `none`. -/
structure RouterResponse where
  status_code : Nat
  response_body : String
  errno : Option Nat := none
  router_data : Option RouterDataPatch := none
  headers : Option RespHeaders := none
  logged_status : Option Nat := none
deriving DecidableEq, Repr

/-- A raised `RouterException` as constructed in fcm.py; keyword arguments
not passed at a raise site are `none`, `log_exception` defaults to true. -/
structure RouterException where
  message : String
  status_code : Nat
  errno : Option Nat := none
  response_body : Option String := none
  log_exception : Bool := true
deriving DecidableEq, Repr

/-- An uncaught Python exception escaping the routing code: an index error
from subscripting an empty list, an attribute error from calling a method
on `None`, a type error from `len(None)`, or a key error from subscripting
a dict on an absent key. -/
inductive PyErr where
  | indexError
  | attributeError
  | typeError
  | keyError (key : String)
deriving DecidableEq, Repr

/-- Outcome of a dispatch attempt: a returned `RouterResponse`, a raised
`RouterException`, or an uncaught Python exception. -/
inductive RouteResult where
  | response (r : RouterResponse)
  | failure (e : RouterException)
  | pyError (e : PyErr)
deriving DecidableEq, Repr

/-- Result of `_process_reply`: the outcome together with the metric
counters incremented, in order. -/
structure ProcOut where
  outcome : RouteResult
  metrics : List String
deriving DecidableEq, Repr

/-- Router configuration as read in `__init__` and `_route`:
`router_conf.get("ttl", 60)`, `router_conf.get("dryrun", False)`,
`router_conf.get("collapseKey", "webpush")`, `senderID`, `auth`,
`config.get("max_data", 4096)` (read at dispatch time, hence optional here),
and `ap_settings.endpoint_url`. -/
structure Config where
  min_ttl : Int := 60
  dryrun : Bool := false
  collapseKey : String := "webpush"
  senderID : String
  auth : String
  max_data : Option Nat := none
  endpoint_url : String
deriving DecidableEq, Repr

/-- The argument record of the `fcm.notify_single_device` call
(fcm.py lines 190-196), including the `data` message payload. -/
structure FCMReq where
  collapse_key : String
  data_chid : String
  data_body : Option String := none
  data_con : Option String := none
  data_enc : Option String := none
  data_cryptokey : Option String := none
  data_enckey : Option String := none
  dry_run : Bool
  registration_id : String
  time_to_live : Int
deriving DecidableEq, Repr

/-- What the external pyfcm gateway call does when invoked: return a reply,
or raise an authentication, connection, or other exception
(fcm.py lines 189-208). -/
inductive GatewayOutcome where
  | ok (reply : Reply)
  | authError
  | connError
  | otherError
deriving DecidableEq, Repr

/-- Result of `_route`: outcome, metric increments in order, and the
gateway request actually issued (none when no gateway call was made). -/
structure RouteOut where
  outcome : RouteResult
  metrics : List String
  request : Option FCMReq := none
deriving DecidableEq, Repr

/-- Python truthiness of an optional integer (`reply.get("failure")` etc.):
an absent key and zero are falsy. -/
def truthy : Option Int → Bool
  | none => false
  | some n => n != 0

/-- Python truthiness of an optional string (`router_data.get("token")`,
`notification.data`): an absent key and the empty string are falsy. -/
def pyTruthyStr : Option String → Bool
  | none => false
  | some s => s != ""

/-- `notification.ttl or 0`: `None` and `0` are falsy and give `0`;
any other integer gives itself. -/
def pyOrZero : Option Int → Int
  | none => 0
  | some v => if v == 0 then 0 else v

/-- `FCMRouter.MAX_TTL` (fcm.py line 27). -/
def MAX_TTL : Int := 2419200

/-- The clamped TTL of fcm.py lines 187-188:
`min(self.MAX_TTL, max(self.min_ttl, notification.ttl or 0))`. -/
def effectiveTtl (min_ttl : Int) (t : Option Int) : Int :=
  min MAX_TTL (max min_ttl (pyOrZero t))

/-- `reply.get("results", [{}])[0]` (fcm.py line 225): an absent `results`
key yields the empty dict, a present non-empty list yields its head, and a
present empty list raises an IndexError. -/
def getResult (reply : Reply) : Except PyErr FCMResult :=
  match reply.results with
  | none => .ok {}
  | some [] => .error .indexError
  | some (r :: _) => .ok r

/-- The result record `_process_reply` works with when the extraction does
not raise: head of a present non-empty `results` list, `{}` otherwise. -/
def replyResult (reply : Reply) : FCMResult :=
  match reply.results with
  | some (r :: _) => r
  | _ => {}

/-- `FCMRouter._process_reply` (fcm.py lines 220-272). Mirrors the source
control flow: extract `result`, then the canonical-ids branch (which reads
`router_data["token"]` for its log line before returning 503 with a token
patch), then the failure branch (increment the failed counter, resolve the
reason with `result.get("error", "Unreported")`, look it up in
`reasonTable` with no default so an unknown reason leaves `err = None` and
the subsequent `err.get("crit", False)` raises an AttributeError; a
critical entry logs `len(notification.data)` and `router_data["token"]`
then raises, a non-critical entry reads `router_data["creds"]` then
returns), and finally the success branch. -/
def _process_reply (cfg : Config) (reply : Reply) (n : Notification)
    (rd : RouterData) (ttl : Int) : ProcOut :=
  match getResult reply with
  | .error e => ⟨.pyError e, []⟩
  | .ok result =>
    if truthy reply.canonical_ids then
      match rd.token with
      | none => ⟨.pyError (.keyError "token"), []⟩
      | some _ =>
        ⟨.response { status_code := 503,
                     response_body := "Please try request again.",
                     router_data := some (.tokenPatch result.registration_id) },
         ["updates.client.bridge.fcm.failed.rereg"]⟩
    else if truthy reply.failure then
      let ms := ["updates.client.bridge.fcm.failed"]
      match reasonTable (result.error.getD "Unreported") with
      | none => ⟨.pyError .attributeError, ms⟩
      | some e =>
        if e.crit then
          match n.data with
          | none => ⟨.pyError .typeError, ms⟩
          | some _ =>
            match rd.token with
            | none => ⟨.pyError (.keyError "token"), ms⟩
            | some _ =>
              ⟨.failure { message := "FCM failure to deliver",
                          status_code := e.err,
                          response_body := some "Please try request later.",
                          log_exception := false }, ms⟩
        else
          match rd.creds with
          | none => ⟨.pyError (.keyError "creds"), ms⟩
          | some _ =>
            ⟨.response { status_code := e.err,
                         errno := some e.errno,
                         response_body := e.msg,
                         router_data := some .emptyPatch }, ms⟩
    else
      ⟨.response { status_code := 201, response_body := "",
                   headers := some { ttl := ttl,
                                     location := cfg.endpoint_url ++ "/m/" ++ n.version },
                   logged_status := some 200 },
       ["updates.client.bridge.fcm.succeeded"]⟩

/-- The message of the oversized-payload `RouterException` of fcm.py
lines 169-174, with the overflow amount interpolated by the `%d` format. -/
def oversizeMsg (overflow : Nat) : String :=
  "This message is intended for a constrained device and is limited " ++
  "to 3070 bytes. Converted buffer too long by " ++ toString overflow ++ " bytes"

/-- `self._error("No registration token found. Rejecting message.", 410,
errno=106, log_exception=False)` (fcm.py lines 159-162): `_error` sets
`response_body` to the message. -/
def noTokenExc : RouterException :=
  { message := "No registration token found. Rejecting message.",
    status_code := 410, errno := some 106,
    response_body := some "No registration token found. Rejecting message.",
    log_exception := false }

/-- Tail of `FCMRouter._route` (fcm.py lines 189-212): the
`notify_single_device` call guarded by the exception classifiers, the
attempted-counter increment, and the hand-off to `_process_reply` with the
clamped TTL carried in the request. -/
def routeSend (cfg : Config) (n : Notification) (rd : RouterData)
    (gw : GatewayOutcome) (req : FCMReq) : RouteOut :=
  match gw with
  | .authError =>
    ⟨.failure { message := "Server error", status_code := 500 }, [], some req⟩
  | .connError =>
    ⟨.failure { message := "Server error", status_code := 502, log_exception := false },
     ["updates.client.bridge.fcm.connection_err"], some req⟩
  | .otherError =>
    ⟨.failure { message := "Server error", status_code := 500 }, [], some req⟩
  | .ok reply =>
    let p := _process_reply cfg reply n rd req.time_to_live
    ⟨p.outcome, "updates.client.bridge.fcm.attempted" :: p.metrics, some req⟩

/-- `FCMRouter._route` (fcm.py lines 154-212). Mirrors the source: reject a
falsy token with a 410/106 `RouterException`; when `notification.data` is
truthy, enforce the `max_data` limit (413/104 with the overflow in the
message) and read the mandatory `encoding` and `encryption` headers (a
missing one raises a KeyError) and the optional crypto key headers
(`crypto_key` takes precedence over `encryption_key`); clamp the TTL; then
issue the gateway call via `routeSend`. -/
def _route (cfg : Config) (n : Notification) (rd : RouterData)
    (gw : GatewayOutcome) : RouteOut :=
  if pyTruthyStr rd.token then
    let regid := rd.token.getD ""
    if pyTruthyStr n.data then
      let d := n.data.getD ""
      let mdata := cfg.max_data.getD 4096
      if d.length > mdata then
        ⟨.failure { message := oversizeMsg (d.length - mdata),
                    status_code := 413, errno := some 104,
                    response_body := some (oversizeMsg (d.length - mdata)),
                    log_exception := false }, [], none⟩
      else
        match n.headers.encoding with
        | none => ⟨.pyError (.keyError "encoding"), [], none⟩
        | some con =>
          match n.headers.encryption with
          | none => ⟨.pyError (.keyError "encryption"), [], none⟩
          | some enc =>
            routeSend cfg n rd gw
              { collapse_key := cfg.collapseKey,
                data_chid := n.chid_hex,
                data_body := some d,
                data_con := some con,
                data_enc := some enc,
                data_cryptokey :=
                  if n.headers.crypto_key.isSome then n.headers.crypto_key else none,
                data_enckey :=
                  if n.headers.crypto_key.isSome then none else n.headers.encryption_key,
                dry_run := cfg.dryrun || rd.has_dryrun,
                registration_id := regid,
                time_to_live := effectiveTtl cfg.min_ttl n.ttl }
    else
      routeSend cfg n rd gw
        { collapse_key := cfg.collapseKey,
          data_chid := n.chid_hex,
          dry_run := cfg.dryrun || rd.has_dryrun,
          registration_id := regid,
          time_to_live := effectiveTtl cfg.min_ttl n.ttl }
  else
    ⟨.failure noTokenExc, [], none⟩

/-- `FCMRouter.register` (fcm.py lines 126-146): fail 401 when the `token`
key is absent from `router_data` (`"token" not in router_data` tests key
presence only), fail 410/105 when `app_id` differs from the configured
`senderID`, and otherwise return the routing data with `creds` assigned
and nothing else changed. -/
def register (cfg : Config) (rd : RouterData) (app_id : String) :
    Except RouterException RouterData :=
  match rd.token with
  | none =>
    .error { message := "connect info missing FCM Instance \x27token\x27",
             status_code := 401,
             response_body := some "connect info missing FCM Instance \x27token\x27" }
  | some _ =>
    if app_id == cfg.senderID then
      .ok { rd with creds := some { senderID := cfg.senderID, auth := cfg.auth } }
    else
      .error { message := "Invalid SenderID", status_code := 410,
               errno := some 105, response_body := some "Invalid SenderID" }

/-- A dispatch outcome is settled when it is a `RouterResponse` or a
raised `RouterException`, rather than an uncaught Python exception. -/
def settled : RouteResult → Bool
  | .response _ => true
  | .failure _ => true
  | .pyError _ => false

end FCM

namespace FCM

/-- A concrete configuration used to evaluate the definitions. -/
def cfg0 : Config :=
  { senderID := "sender0", auth := "auth0",
    endpoint_url := "https://updates.example.com" }

/-- A concrete notification with no payload. -/
def n0 : Notification := { chid_hex := "0123abcd", version := "v1" }

/-- Concrete routing data with a token and credentials. -/
def rd0 : RouterData :=
  { token := some "tok0",
    creds := some { senderID := "sender0", auth := "auth0" } }

/-- The preconditions under which `_process_reply` reaches one of its
intended exits: the results list is not present-and-empty, a truthy
canonical-ids flag finds a token to log, and a truthy failure flag resolves
its reason in the table, with payload and token available for a critical
entry and credentials available for a non-critical one. -/
def replyHandled (reply : Reply) (n : Notification) (rd : RouterData) : Prop :=
  reply.results ≠ some [] ∧
  (truthy reply.canonical_ids = true → rd.token ≠ none) ∧
  (truthy reply.failure = true → truthy reply.canonical_ids = false →
    ∃ e, reasonTable ((replyResult reply).error.getD "Unreported") = some e ∧
      (e.crit = true → n.data ≠ none ∧ rd.token ≠ none) ∧
      (e.crit = false → rd.creds ≠ none))

/-- The precondition under which a truthy payload clears the data branch of
`_route`: the mandatory content headers are present. -/
def headersOk (n : Notification) : Prop :=
  pyTruthyStr n.data = true →
    n.headers.encoding ≠ none ∧ n.headers.encryption ≠ none

/-- The precondition under which a truthy payload passes the data branch of
`_route` entirely: within the size limit and with the mandatory content
headers present. -/
def dataOk (cfg : Config) (n : Notification) : Prop :=
  pyTruthyStr n.data = true →
    (n.data.getD "").length ≤ cfg.max_data.getD 4096 ∧
    n.headers.encoding ≠ none ∧ n.headers.encryption ≠ none

/-- Concrete routing data with a token but no credentials. -/
def rdNoCreds : RouterData := { token := some "tok0" }

/-- A concrete failure reply whose reason is the critical entry
InvalidPackageName. -/
def replyCrit : Reply :=
  { failure := some 1, results := some [{ error := some "InvalidPackageName" }] }

/-- A concrete failure reply whose reason is the non-critical entry
NotRegistered. -/
def replySoft : Reply :=
  { failure := some 1, results := some [{ error := some "NotRegistered" }] }

/-- A concrete configuration with a small payload limit. -/
def cfgSmall : Config := { cfg0 with max_data := some 5 }

theorem getResult_ok (reply : Reply) (h : reply.results ≠ some []) :
    getResult reply = .ok (replyResult reply) := by
  unfold getResult replyResult
  cases hr : reply.results with
  | none => rfl
  | some l =>
    cases l with
    | nil => exact absurd hr h
    | cons a t => rfl

theorem effectiveTtl_eq (m : Int) (t : Option Int) :
    effectiveTtl m t = min 2419200 (max m (t.getD 0)) := by
  unfold effectiveTtl MAX_TTL pyOrZero
  cases t with
  | none => rfl
  | some v =>
    by_cases hv : v = 0 <;> simp [hv]

end FCM

namespace FCM

/-- C1: with failure set and an error string absent from the reason table,
the code does not fall back to the Unreported entry: the table lookup
returns None and the subsequent attribute access raises an AttributeError
(first conjunct); only a reply with no error field at all resolves to the
Unreported entry, whose critical path raises the 500 RouterException
(second conjunct). This evaluates the code at the failing input of the
claim. -/
theorem claim_C1_code_eval :
    ((_process_reply cfg0
        { failure := some 1, results := some [{ error := some "NotInTable" }] }
        { n0 with data := some "x" } rd0 60).outcome
      = .pyError .attributeError)
    ∧ (_process_reply cfg0 { failure := some 1 }
        { n0 with data := some "x" } rd0 60
      = ⟨.failure { message := "FCM failure to deliver", status_code := 500,
                    response_body := some "Please try request later.",
                    log_exception := false },
         ["updates.client.bridge.fcm.failed"]⟩) :=
  ⟨rfl, rfl⟩

/-- C2 counterexample: a failure reply with no results and no payload on
the notification drives the critical Unreported path into
len of None, a TypeError that is neither a RouterResponse nor a
RouterFailure, so a dispatch attempt does not always terminate in one of
the two. -/
theorem claim_C2_counterexample :
    settled ((_route cfg0 n0 rd0 (.ok { failure := some 1 })).outcome) = false :=
  rfl

theorem process_reply_settled (cfg : Config) (reply : Reply) (n : Notification)
    (rd : RouterData) (ttl : Int) (h : replyHandled reply n rd) :
    settled ((_process_reply cfg reply n rd ttl).outcome) = true := by
  obtain ⟨h1, h2, h3⟩ := h
  simp only [_process_reply, getResult_ok reply h1]
  cases hc : truthy reply.canonical_ids with
  | true =>
    cases ht : rd.token with
    | none => exact absurd ht (h2 hc)
    | some tok => simp [settled]
  | false =>
    cases hf : truthy reply.failure with
    | false => simp [settled]
    | true =>
      obtain ⟨e, he, hcrit, hncrit⟩ := h3 hf hc
      rw [he]
      cases hcr : e.crit with
      | true =>
        obtain ⟨hd, ht⟩ := hcrit hcr
        cases hdd : n.data with
        | none => exact absurd hdd hd
        | some d =>
          cases htt : rd.token with
          | none => exact absurd htt ht
          | some tok => simp [hcr, settled]
      | false =>
        cases hcc : rd.creds with
        | none => exact absurd hcc (hncrit hcr)
        | some c => simp [hcr, settled]

/-- C2 amended: a dispatch attempt with a gateway reply terminates in
exactly a RouterResponse or a RouterFailure provided the reply and context
avoid the uncaught-exception paths: the results list is not
present-and-empty, a truthy canonical-ids flag has a token to log, a
truthy failure flag resolves its reason in the reason table with payload
and token available when the entry is critical and credentials available
when it is not, and a truthy payload has its mandatory content headers. -/
theorem claim_C2_dispatch_settled (cfg : Config) (n : Notification)
    (rd : RouterData) (reply : Reply)
    (hh : headersOk n) (hr : replyHandled reply n rd) :
    settled ((_route cfg n rd (.ok reply)).outcome) = true := by
  unfold _route
  cases ht : pyTruthyStr rd.token with
  | false => simp [settled]
  | true =>
    simp only [if_true]
    cases hd : pyTruthyStr n.data with
    | false =>
      simp only [Bool.false_eq_true, if_false, routeSend]
      exact process_reply_settled cfg reply n rd _ hr
    | true =>
      obtain ⟨henc, hencr⟩ := hh hd
      simp only [if_true]
      by_cases hsz : (n.data.getD "").length > cfg.max_data.getD 4096
      · simp [hsz, settled]
      · simp only [hsz, if_false]
        cases he1 : n.headers.encoding with
        | none => exact absurd he1 henc
        | some con =>
          cases he2 : n.headers.encryption with
          | none => exact absurd he2 hencr
          | some enc =>
            simp only [routeSend]
            exact process_reply_settled cfg reply n rd _ hr

/-- C2 witness: a successful dispatch of a payload-free notification with a
token satisfies all the side conditions and settles. -/
theorem claim_C2_witness :
    settled ((_route cfg0 n0 rd0 (.ok {})).outcome) = true :=
  claim_C2_dispatch_settled cfg0 n0 rd0 {}
    (fun h => absurd h (by decide))
    ⟨by decide, fun h => absurd h (by decide), fun h => absurd h (by decide)⟩

end FCM

namespace FCM

theorem route_request_ttl (cfg : Config) (n : Notification) (rd : RouterData)
    (gw : GatewayOutcome) :
    ((_route cfg n rd gw).request).elim True
      (fun r => r.time_to_live = effectiveTtl cfg.min_ttl n.ttl) := by
  unfold _route routeSend
  dsimp only
  repeat' split
  all_goals simp

/-- C3: whenever a dispatch attempt issues a gateway request, the TTL it
carries equals min(2419200, max(minTtl, requested or 0)). -/
theorem claim_C3_ttl_clamp (cfg : Config) (n : Notification) (rd : RouterData)
    (gw : GatewayOutcome) (req : FCMReq)
    (h : (_route cfg n rd gw).request = some req) :
    req.time_to_live = min 2419200 (max cfg.min_ttl (n.ttl.getD 0)) := by
  have h2 := route_request_ttl cfg n rd gw
  rw [h] at h2
  simpa [effectiveTtl_eq] using h2

/-- C3 witness: a request for TTL 99999999 with the default floor of 60 is
clamped to the 28-day maximum 2419200. -/
theorem claim_C3_witness :
    ({ collapse_key := "webpush", data_chid := "0123abcd",
       dry_run := false, registration_id := "tok0",
       time_to_live := 2419200 } : FCMReq).time_to_live
      = min 2419200 (max cfg0.min_ttl
          (({ n0 with ttl := some 99999999 } : Notification).ttl.getD 0)) :=
  claim_C3_ttl_clamp cfg0 { n0 with ttl := some 99999999 } rd0 (.ok {}) _
    (by decide)

/-- C4 counterexample: routing data whose token key is present but empty
registers successfully when the sender identity matches, instead of the
401 failure the claim requires for an empty token. -/
theorem claim_C4_counterexample :
    register cfg0 { token := some "" } "sender0"
      = .ok { token := some "",
              creds := some { senderID := "sender0", auth := "auth0" } } :=
  rfl

/-- C4 amended: registration fails with status 401 exactly when the token
key is absent (an empty present token passes the check), and on success
the key present and the sender identity matching the configuration it
assigns the configured credentials and changes nothing else. -/
theorem claim_C4_amended (cfg : Config) (rd : RouterData) (app_id : String) :
    (rd.token = none →
      register cfg rd app_id =
        .error { message := "connect info missing FCM Instance \x27token\x27",
                 status_code := 401,
                 response_body :=
                   some "connect info missing FCM Instance \x27token\x27" })
    ∧ (∀ t, rd.token = some t → app_id = cfg.senderID →
        register cfg rd app_id =
          .ok { rd with
                creds := some { senderID := cfg.senderID, auth := cfg.auth } }) := by
  constructor
  · intro h
    unfold register
    rw [h]
  · intro t h heq
    unfold register
    rw [h, heq]
    simp

/-- C4 witness: a missing token is rejected with 401 and a present token
with the matching sender identity is assigned the configured credentials. -/
theorem claim_C4_witness :
    register cfg0 { token := none } "sender0"
      = .error { message := "connect info missing FCM Instance \x27token\x27",
                 status_code := 401,
                 response_body :=
                   some "connect info missing FCM Instance \x27token\x27" }
    ∧ register cfg0 { token := some "tok0" } "sender0"
      = .ok { token := some "tok0",
              creds := some { senderID := cfg0.senderID, auth := cfg0.auth } } :=
  ⟨(claim_C4_amended cfg0 { token := none } "sender0").1 rfl,
   (claim_C4_amended cfg0 { token := some "tok0" } "sender0").2 "tok0" rfl rfl⟩

/-- C5 counterexample: a reply whose results key holds an empty list is not
processed cleanly: the subscription of the empty list raises an
IndexError. -/
theorem claim_C5_counterexample :
    (_process_reply cfg0 { results := some [] } n0 rd0 60).outcome
      = .pyError .indexError :=
  rfl

/-- C5 amended: reply processing extracts the empty record when the results
key is absent and the head of the list when it is non-empty, and raises an
IndexError exactly when the results key is present with an empty list. -/
theorem claim_C5_amended (cfg : Config) (reply : Reply) (n : Notification)
    (rd : RouterData) (ttl : Int) :
    (reply.results = none → getResult reply = .ok {})
    ∧ (∀ r rs, reply.results = some (r :: rs) → getResult reply = .ok r)
    ∧ ((_process_reply cfg reply n rd ttl).outcome = .pyError .indexError
        ↔ reply.results = some []) := by
  refine ⟨?_, ?_, ?_⟩
  · intro h
    unfold getResult
    rw [h]
  · intro r rs h
    unfold getResult
    rw [h]
  · constructor
    · intro h
      by_cases hcase : reply.results = some []
      · exact hcase
      · exfalso
        have hok := getResult_ok reply hcase
        simp only [_process_reply, hok] at h
        split at h
        · split at h <;> simp at h
        · split at h
          · split at h
            · simp at h
            · split at h
              · split at h
                · simp at h
                · split at h <;> simp at h
              · split at h <;> simp at h
          · simp at h
    · intro h
      simp [_process_reply, getResult, h]

end FCM

namespace FCM

/-- C5 witness: the empty record for an absent results key, the head for a
non-empty list, and an IndexError for a present empty list. -/
theorem claim_C5_witness :
    getResult {} = .ok {}
    ∧ getResult { results := some [{ error := some "E" }] }
        = .ok { error := some "E" }
    ∧ (_process_reply cfg0 { results := some [] } n0 rd0 60).outcome
        = .pyError .indexError :=
  ⟨(claim_C5_amended cfg0 {} n0 rd0 60).1 rfl,
   (claim_C5_amended cfg0 { results := some [{ error := some "E" }] } n0 rd0 60).2.1
     _ _ rfl,
   ((claim_C5_amended cfg0 { results := some [] } n0 rd0 60).2.2).mpr rfl⟩

/-- C6: with a truthy canonical-ids flag, a token present for the log line
and a well-formed results list, reply processing returns the 503 response
carrying the new registration id of the reply in its token patch and
increments exactly the rereg failure counter. -/
theorem claim_C6_canonical (cfg : Config) (reply : Reply) (n : Notification)
    (rd : RouterData) (ttl : Int) (tok : String)
    (hc : truthy reply.canonical_ids = true)
    (ht : rd.token = some tok)
    (hr : reply.results ≠ some []) :
    _process_reply cfg reply n rd ttl =
      ⟨.response { status_code := 503,
                   response_body := "Please try request again.",
                   router_data :=
                     some (.tokenPatch (replyResult reply).registration_id) },
       ["updates.client.bridge.fcm.failed.rereg"]⟩ := by
  simp [_process_reply, getResult_ok reply hr, hc, ht]

/-- C6 witness: a canonical-ids reply carrying a new registration id yields
the 503 retry response patched with that id and one rereg increment. -/
theorem claim_C6_witness :
    _process_reply cfg0
        { canonical_ids := some 1,
          results := some [{ registration_id := some "newtok" }] }
        n0 rd0 60
      = ⟨.response { status_code := 503,
                     response_body := "Please try request again.",
                     router_data := some (.tokenPatch (some "newtok")) },
         ["updates.client.bridge.fcm.failed.rereg"]⟩ :=
  claim_C6_canonical cfg0
    { canonical_ids := some 1,
      results := some [{ registration_id := some "newtok" }] }
    n0 rd0 60 "tok0" (by decide) rfl (by decide)

theorem process_reply_success (cfg : Config) (reply : Reply) (n : Notification)
    (rd : RouterData) (ttl : Int)
    (hc : truthy reply.canonical_ids = false)
    (hf : truthy reply.failure = false)
    (hr : reply.results ≠ some []) :
    _process_reply cfg reply n rd ttl =
      ⟨.response { status_code := 201, response_body := "",
                   headers := some { ttl := ttl,
                                     location := cfg.endpoint_url ++ "/m/" ++ n.version },
                   logged_status := some 200 },
       ["updates.client.bridge.fcm.succeeded"]⟩ := by
  simp [_process_reply, getResult_ok reply hr, hc, hf]

theorem route_ok_reply (cfg : Config) (n : Notification) (rd : RouterData)
    (reply : Reply)
    (htok : pyTruthyStr rd.token = true)
    (hd : dataOk cfg n) :
    ∃ req : FCMReq,
      _route cfg n rd (.ok reply) =
        ⟨(_process_reply cfg reply n rd (effectiveTtl cfg.min_ttl n.ttl)).outcome,
         "updates.client.bridge.fcm.attempted"
           :: (_process_reply cfg reply n rd (effectiveTtl cfg.min_ttl n.ttl)).metrics,
         some req⟩ := by
  unfold _route
  cases hdd : pyTruthyStr n.data with
  | false =>
    simp only [htok, if_true, hdd, Bool.false_eq_true, if_false, routeSend]
    exact ⟨_, rfl⟩
  | true =>
    obtain ⟨hlen, henc, hencr⟩ := hd hdd
    have hsz : ¬((n.data.getD "").length > cfg.max_data.getD 4096) :=
      Nat.not_lt.mpr hlen
    cases he1 : n.headers.encoding with
    | none => exact absurd he1 henc
    | some con =>
      cases he2 : n.headers.encryption with
      | none => exact absurd he2 hencr
      | some enc =>
        simp only [htok, if_true, hdd, hsz, if_false, he1, he2, routeSend]
        exact ⟨_, rfl⟩

/-- C7: a dispatch whose reply has neither flag set yields the 201 response
with empty body, a TTL header equal to the clamped effective TTL of that
send, a Location header of the exact form base/m/version, logged status
200, and exactly one succeeded increment after the attempted increment. -/
theorem claim_C7_success (cfg : Config) (n : Notification) (rd : RouterData)
    (reply : Reply)
    (htok : pyTruthyStr rd.token = true)
    (hd : dataOk cfg n)
    (hc : truthy reply.canonical_ids = false)
    (hf : truthy reply.failure = false)
    (hr : reply.results ≠ some []) :
    ((_route cfg n rd (.ok reply)).outcome
      = .response { status_code := 201, response_body := "",
                    headers := some
                      { ttl := min 2419200 (max cfg.min_ttl (n.ttl.getD 0)),
                        location := cfg.endpoint_url ++ "/m/" ++ n.version },
                    logged_status := some 200 })
    ∧ (_route cfg n rd (.ok reply)).metrics
        = ["updates.client.bridge.fcm.attempted",
           "updates.client.bridge.fcm.succeeded"] := by
  obtain ⟨req, heq⟩ := route_ok_reply cfg n rd reply htok hd
  rw [heq, process_reply_success cfg reply n rd _ hc hf hr]
  exact ⟨by rw [effectiveTtl_eq], rfl⟩

/-- C7 witness: a payload-free send with the default floor and no requested
TTL succeeds with TTL header 60 and the expected Location. -/
theorem claim_C7_witness :
    ((_route cfg0 n0 rd0 (.ok {})).outcome
      = .response { status_code := 201, response_body := "",
                    headers := some
                      { ttl := min 2419200 (max cfg0.min_ttl (n0.ttl.getD 0)),
                        location := cfg0.endpoint_url ++ "/m/" ++ n0.version },
                    logged_status := some 200 })
    ∧ (_route cfg0 n0 rd0 (.ok {})).metrics
        = ["updates.client.bridge.fcm.attempted",
           "updates.client.bridge.fcm.succeeded"] :=
  claim_C7_success cfg0 n0 rd0 {} (by decide)
    (fun h => absurd h (by decide)) (by decide) (by decide) (by decide)

end FCM

namespace FCM

/-- C8: when a present payload exceeds the configured limit on a dispatch
with a token, the attempt fails with the 413 errno-104 RouterException,
not logged as an exception, whose message carries the overflow amount. -/
theorem claim_C8_oversize (cfg : Config) (n : Notification) (rd : RouterData)
    (gw : GatewayOutcome) (d : String)
    (htok : pyTruthyStr rd.token = true)
    (hd : n.data = some d)
    (hlen : cfg.max_data.getD 4096 < d.length) :
    _route cfg n rd gw =
      ⟨.failure { message := oversizeMsg (d.length - cfg.max_data.getD 4096),
                  status_code := 413, errno := some 104,
                  response_body :=
                    some (oversizeMsg (d.length - cfg.max_data.getD 4096)),
                  log_exception := false }, [], none⟩ := by
  have hne : d ≠ "" := by
    intro h
    subst h
    simp at hlen
  unfold _route
  simp [htok, hd, hlen]
  intro hfalse
  simp [pyTruthyStr, hne] at hfalse

/-- C8 witness: a nine-byte payload against a five-byte limit fails with
413, errno 104, and an overflow of four bytes in the message. -/
theorem claim_C8_witness :
    _route cfgSmall { n0 with data := some "123456789" } rd0 .otherError =
      ⟨.failure { message :=
                    oversizeMsg ("123456789".length - cfgSmall.max_data.getD 4096),
                  status_code := 413, errno := some 104,
                  response_body :=
                    some (oversizeMsg
                      ("123456789".length - cfgSmall.max_data.getD 4096)),
                  log_exception := false }, [], none⟩ :=
  claim_C8_oversize cfgSmall { n0 with data := some "123456789" } rd0
    .otherError "123456789" (by decide) rfl (by decide)

/-- C9: in the failure branch with a critical table entry, the documented
RouterFailure with entry status, retry-later body and no exception logging
is produced when the payload is present, while an absent payload makes the
unguarded len computation in the critical log raise a TypeError instead. -/
theorem claim_C9_critical_guard (cfg : Config) (reply : Reply)
    (n : Notification) (rd : RouterData) (ttl : Int) (e : ReasonEntry)
    (tok : String)
    (hr : reply.results ≠ some [])
    (hc : truthy reply.canonical_ids = false)
    (hf : truthy reply.failure = true)
    (he : reasonTable ((replyResult reply).error.getD "Unreported") = some e)
    (hcrit : e.crit = true)
    (htok : rd.token = some tok) :
    (∀ d, n.data = some d →
      _process_reply cfg reply n rd ttl =
        ⟨.failure { message := "FCM failure to deliver", status_code := e.err,
                    response_body := some "Please try request later.",
                    log_exception := false },
         ["updates.client.bridge.fcm.failed"]⟩)
    ∧ (n.data = none →
        _process_reply cfg reply n rd ttl =
          ⟨.pyError .typeError, ["updates.client.bridge.fcm.failed"]⟩) := by
  constructor
  · intro d hd
    simp [_process_reply, getResult_ok reply hr, hc, hf, he, hcrit, hd, htok]
  · intro hd
    simp [_process_reply, getResult_ok reply hr, hc, hf, he, hcrit, hd]

/-- C9 witness: a critical InvalidPackageName failure raises the 500
RouterException when the payload is present and a TypeError when it is
absent. -/
theorem claim_C9_witness :
    _process_reply cfg0 replyCrit { n0 with data := some "x" } rd0 60 =
      ⟨.failure { message := "FCM failure to deliver", status_code := 500,
                  response_body := some "Please try request later.",
                  log_exception := false },
       ["updates.client.bridge.fcm.failed"]⟩
    ∧ _process_reply cfg0 replyCrit n0 rd0 60 =
      ⟨.pyError .typeError, ["updates.client.bridge.fcm.failed"]⟩ :=
  ⟨(claim_C9_critical_guard cfg0 replyCrit { n0 with data := some "x" } rd0 60
      { msg := "Invalid Package Name specified", err := 500, errno := 2,
        crit := true }
      "tok0" (by decide) (by decide) (by decide) (by decide) rfl rfl).1 "x" rfl,
   (claim_C9_critical_guard cfg0 replyCrit n0 rd0 60
      { msg := "Invalid Package Name specified", err := 500, errno := 2,
        crit := true }
      "tok0" (by decide) (by decide) (by decide) (by decide) rfl rfl).2 rfl⟩

/-- C10: in the failure branch with a non-critical table entry, the
documented RouterResponse with entry status, errno, message template and
empty patch is produced when a creds key is present, while absent
credentials make the unguarded creds subscription in the informational log
raise a KeyError instead. -/
theorem claim_C10_creds_guard (cfg : Config) (reply : Reply)
    (n : Notification) (rd : RouterData) (ttl : Int) (e : ReasonEntry)
    (hr : reply.results ≠ some [])
    (hc : truthy reply.canonical_ids = false)
    (hf : truthy reply.failure = true)
    (he : reasonTable ((replyResult reply).error.getD "Unreported") = some e)
    (hncrit : e.crit = false) :
    (∀ c, rd.creds = some c →
      _process_reply cfg reply n rd ttl =
        ⟨.response { status_code := e.err, errno := some e.errno,
                     response_body := e.msg,
                     router_data := some .emptyPatch },
         ["updates.client.bridge.fcm.failed"]⟩)
    ∧ (rd.creds = none →
        _process_reply cfg reply n rd ttl =
          ⟨.pyError (.keyError "creds"), ["updates.client.bridge.fcm.failed"]⟩) := by
  constructor
  · intro c hcc
    simp [_process_reply, getResult_ok reply hr, hc, hf, he, hncrit, hcc]
  · intro hcc
    simp [_process_reply, getResult_ok reply hr, hc, hf, he, hncrit, hcc]

/-- C10 witness: a non-critical NotRegistered failure yields the 410
errno-103 response when credentials are present and a KeyError when the
creds key is absent. -/
theorem claim_C10_witness :
    _process_reply cfg0 replySoft n0 rd0 60 =
      ⟨.response { status_code := 410, errno := some 103,
                   response_body := "device has unregistered with FCM: {regid}",
                   router_data := some .emptyPatch },
       ["updates.client.bridge.fcm.failed"]⟩
    ∧ _process_reply cfg0 replySoft n0 rdNoCreds 60 =
      ⟨.pyError (.keyError "creds"), ["updates.client.bridge.fcm.failed"]⟩ :=
  ⟨(claim_C10_creds_guard cfg0 replySoft n0 rd0 60
      { msg := "device has unregistered with FCM: {regid}", err := 410,
        errno := 103 }
      (by decide) (by decide) (by decide) (by decide) rfl).1
     { senderID := "sender0", auth := "auth0" } rfl,
   (claim_C10_creds_guard cfg0 replySoft n0 rdNoCreds 60
      { msg := "device has unregistered with FCM: {regid}", err := 410,
        errno := 103 }
      (by decide) (by decide) (by decide) (by decide) rfl).2 rfl⟩

end FCM
